import Mathlib

set_option maxHeartbeats 1000000
set_option maxRecDepth 4000
set_option linter.unusedVariables false

/-! Verification of the Databricks Genie NLQ tool
(`src/data_analyst/tools/databricks_tools.py`).  The tool is a synchronous
HTTP polling client; its pure logic is embedded below over a JSON value type,
with the network modelled as an oracle: a list of responses consumed in order.
Wall-clock time is modelled by a counter advanced by the sleeps the code
performs (poll-interval sleeps and retry back-off sleeps); request transmission
itself is instantaneous in the model. -/

/-- A JSON value as produced by `response.json()`.  Numbers are modelled as
integers; the tool never inspects numeric fields. -/
inductive JVal where
  | nullV
  | boolV (b : Bool)
  | num (n : Int)
  | str (s : String)
  | list (items : List JVal)
  | obj (fields : List (String × JVal))

/-- Python truthiness of a JSON value (`if not x`): `None`, `False`, `0`,
`""`, `[]` and `{}` are falsy, everything else truthy. -/
def JVal.truthy : JVal → Bool
  | .nullV => false
  | .boolV b => b
  | .num n => decide (n ≠ 0)
  | .str s => decide (s ≠ "")
  | .list items => !items.isEmpty
  | .obj fields => !fields.isEmpty

/-- Whether the value is a JSON object (`isinstance(x, dict)`). -/
def JVal.isObj : JVal → Bool
  | .obj _ => true
  | _ => false

/-- First value bound to a key in an association list. -/
def assocFind (k : String) : List (String × JVal) → Option JVal
  | [] => none
  | (k', v) :: rest => if k' = k then some v else assocFind k rest

/-- `d[k]` lookup on an object; `none` when the key is absent or the value is
not an object.  (Python's `dict.get(k)` with no default.) -/
def JVal.lookup? (v : JVal) (k : String) : Option JVal :=
  match v with
  | .obj fields => assocFind k fields
  | _ => none

/-- Python `k in d` for a JSON object. -/
def JVal.hasKey (v : JVal) (k : String) : Bool :=
  (v.lookup? k).isSome

/-- Python type name of a JSON value, for `AttributeError` messages. -/
def pyTypeName : JVal → String
  | .nullV => "NoneType"
  | .boolV _ => "bool"
  | .num _ => "int"
  | .str _ => "str"
  | .list _ => "list"
  | .obj _ => "dict"

/-- Message of the `AttributeError` Python raises when `.get` is called on a
non-dict value. -/
def pyAttrErrMsg (v : JVal) : String :=
  "\x27" ++ pyTypeName v ++ "\x27 object has no attribute \x27get\x27"

/-- `x.get(k, default)` where `x` may be any value: on a dict it is total, on
anything else Python raises `AttributeError` (modelled as `.error`). -/
def JVal.attrGet (v : JVal) (k : String) (dflt : JVal) : Except String JVal :=
  match v with
  | .obj fields => .ok ((assocFind k fields).getD dflt)
  | other => .error (pyAttrErrMsg other)

/-- `x.get(k)` (no default) where `x` may be any value; `AttributeError` on a
non-dict receiver. -/
def JVal.attrGetOpt (v : JVal) (k : String) : Except String (Option JVal) :=
  match v with
  | .obj fields => .ok (assocFind k fields)
  | other => .error (pyAttrErrMsg other)

/-- Python `v == "lit"` for a JSON value against a string literal: true only
for an equal string (cross-type equality is `False` in Python). -/
def jvalEqStr (v : JVal) (s : String) : Bool :=
  match v with
  | .str t => decide (t = s)
  | _ => false

/-- Python `v == "lit"` where `v` is an `Optional` value (`None` compares
unequal to every string). -/
def optEqStr (v : Option JVal) (s : String) : Bool :=
  match v with
  | some w => jvalEqStr w s
  | none => false

/-- Truthiness of an optional value (`if not x` where `x` may be `None`). -/
def optTruthy (v : Option JVal) : Bool :=
  match v with
  | some w => w.truthy
  | none => false

mutual

/-- Python `repr` of a parsed-JSON value, as used by `str` on containers. -/
def JVal.pyRepr : JVal → String
  | .nullV => "None"
  | .boolV b => if b then "True" else "False"
  | .num n => toString n
  | .str s => "\x27" ++ s ++ "\x27"
  | .list items => "[" ++ String.intercalate ", " (pyReprList items) ++ "]"
  | .obj fields => "\x7b" ++ String.intercalate ", " (pyReprFields fields) ++ "\x7d"

/-- Reprs of the elements of a JSON array. -/
def pyReprList : List JVal → List String
  | [] => []
  | v :: vs => v.pyRepr :: pyReprList vs

/-- Reprs of the entries of a JSON object. -/
def pyReprFields : List (String × JVal) → List String
  | [] => []
  | (k, v) :: fs => ("\x27" ++ k ++ "\x27: " ++ v.pyRepr) :: pyReprFields fs

end

/-- Python `str` of a parsed-JSON value: a string is itself, anything else is
its repr. -/
def JVal.pyStr (v : JVal) : String :=
  match v with
  | .str s => s
  | other => other.pyRepr

/-- Python `str` of an `Optional` value (`str(None) = "None"`). -/
def optPyStr (v : Option JVal) : String :=
  match v with
  | some w => w.pyStr
  | none => "None"

/-- Whether the pattern occurs as a contiguous run inside the list. -/
def hasInfixAux (p : List Char) : List Char → Bool
  | [] => decide (p = [])
  | c :: rest => List.isPrefixOf p (c :: rest) || hasInfixAux p rest

/-- Substring test used to state what an error message does or does not
mention. -/
def strHas (s pat : String) : Bool :=
  hasInfixAux pat.data s.data

/-- Python `str.lower()` as used in the case-insensitive comparison at line
247 (ASCII case mapping, which is all the comparison needs). -/
def pyLower (s : String) : String :=
  ⟨s.data.map Char.toLower⟩

/-- `DatabricksGenieNLQTool._truncate`: keep a body of at most `max_len`
characters unchanged, otherwise keep the first `max_len - 3` characters and
append an ellipsis.  (The Python `text is None` branch is unreachable from the
call sites, which always pass `response.text`, a string.) -/
def truncate (text : String) (max_len : Nat) : String :=
  if text.length ≤ max_len then text else text.take (max_len - 3) ++ "..."

/-- Case-sensitive lookup in the response-header association list. -/
def headerGet (headers : List (String × String)) (k : String) : Option String :=
  match headers with
  | [] => none
  | (k', v) :: rest => if k' = k then some v else headerGet rest k

/-- Python `a or b` over optional header strings: `a` when it is truthy
(present and non-empty), otherwise `b`. -/
def pyOrS (a b : Option String) : Option String :=
  match a with
  | some s => if s = "" then b else some s
  | none => b

/-- Truthiness of an optional string. -/
def strOptTruthy (v : Option String) : Bool :=
  match v with
  | some s => decide (s ≠ "")
  | none => false

/-- `DatabricksGenieNLQTool._request_ids`: collect request/org identifiers
from the response headers.  Models the call sites where a response object is
present (the `if not response` guard is for a `None` response). -/
def requestIds (headers : List (String × String)) : String :=
  let rid := pyOrS (headerGet headers "x-request-id")
      (pyOrS (headerGet headers "X-Request-Id")
        (headerGet headers "x-databricks-request-id"))
  let org := headerGet headers "x-databricks-org-id"
  let parts :=
    (if strOptTruthy rid then ["request_id=" ++ rid.getD ""] else []) ++
    (if strOptTruthy org then ["org_id=" ++ org.getD ""] else [])
  if parts.isEmpty then "" else String.intercalate " " parts

/-- The status-specific hint list built at the top of
`DatabricksGenieNLQTool._explain_http_error`. -/
def hintsFor (status_code : Nat) : List String :=
  if status_code = 401 then
    ["Invalid or expired token. Ensure DATABRICKS_TOKEN is a valid Workspace PAT for this instance.",
     "If you recently rotated the token, restart the app to reload .env."]
  else if status_code = 403 then
    ["Forbidden. Your PAT likely lacks permission on the Genie space or workspace.",
     "Verify: Genie Space → Configure → Permissions; ensure your user has at least \x27Can Use\x27."]
  else if status_code = 404 then
    ["Not found. Check GENIE_SPACE_ID and DATABRICKS_INSTANCE host are correct (no protocol in host)."]
  else if status_code = 429 then
    ["Rate limit. The tool retries with backoff. Consider waiting longer between polls."]
  else if status_code ≠ 0 ∧ 500 ≤ status_code ∧ status_code < 600 then
    ["Server error. Try again shortly."]
  else []

/-- The `" Hints: ..."` suffix of an explained HTTP error; empty when the
status has no hint. -/
def hintText (status_code : Nat) : String :=
  if (hintsFor status_code).isEmpty then ""
  else " Hints: " ++ String.intercalate " " (hintsFor status_code)

/-- `DatabricksGenieNLQTool._explain_http_error`: one descriptive string with
the status code, the request URL, the truncated body, any request/org header
identifiers, and the status-specific hints. -/
def explainHttpError (status_code : Nat) (url : String) (response_text : String)
    (headers : List (String × String)) : String :=
  let req_ids := requestIds headers
  let base := "HTTP " ++ toString status_code ++ " calling " ++ url
  let details := "Response body: " ++ truncate response_text 600
  let meta := req_ids
  String.intercalate " | " (List.filter (fun p => !p.isEmpty) [base, details, meta])
    ++ hintText status_code

/-- One HTTP response delivered by the network oracle: status, raw body text,
parsed JSON body (meaningful only for the 200 path, where the code calls
`response.json()`), and headers. -/
structure HttpResponse where
  status : Nat
  text : String
  json : JVal
  headers : List (String × String)

/-- One network event: either a response arrives, or the request itself fails
(connection error / client-side timeout — a `RequestException` carrying no
response). -/
inductive NetEvent where
  | resp (r : HttpResponse)
  | netFail (msg : String)

/-- Result of `_rate_limited_request`: a returned value (`.ret none` is the
`return None` after the retry budget is spent), a raised `HTTPError` carrying
the explained message and the status, or a re-raised exception without a
response. -/
inductive RLOutcome where
  | ret (v : Option JVal)
  | raised (msg : String) (status : Nat)
  | netErr (msg : String)

/-- The `while retry_count < max_retries` loop of
`DatabricksGenieNLQTool._rate_limited_request`.  Each iteration consumes one
network event; a 429 increments the retry count and sleeps
`backoff_factor ** retry_count` seconds (returned in the sleep list); any other
non-200 status raises an explained `HTTPError`; exhausting the budget returns
`None`.  An empty oracle stands for a request that never comes back. -/
def rlrLoop (url : String) (max_retries backoff_factor : Nat) :
    Nat → List NetEvent → RLOutcome × List Nat
  | retry_count, [] =>
    if retry_count < max_retries then (.netErr "connection error", [])
    else (.ret none, [])
  | retry_count, ev :: rest =>
    if retry_count < max_retries then
      match ev with
      | .netFail m => (.netErr m, [])
      | .resp r =>
        if r.status = 200 then (.ret (some r.json), [])
        else if r.status = 429 then
          let out := rlrLoop url max_retries backoff_factor (retry_count + 1) rest
          (out.1, backoff_factor ^ (retry_count + 1) :: out.2)
        else (.raised (explainHttpError r.status url r.text r.headers) r.status, [])
    else (.ret none, [])

/-- `DatabricksGenieNLQTool._rate_limited_request` (the call sites use the
default `max_retries=3, backoff_factor=2`), instrumented with the list of
back-off sleeps performed. -/
def rateLimitedRequest (url : String) (events : List NetEvent)
    (max_retries backoff_factor : Nat) : RLOutcome × List Nat :=
  rlrLoop url max_retries backoff_factor 0 events

/-- Outcome of the submit step of `_run`: `returned` is an early `return` of
an error string (polling never starts), `proceed` carries the conversation and
message identifiers polling will use, `raised` is an exception escaping `_run`
(e.g. `AttributeError` from `.get` on a non-dict). -/
inductive SubmitResult where
  | returned (s : String)
  | proceed (conversation_id message_id : JVal)
  | raised (msg : String)

/-- Lines 171–178 of `_run`: parse the start-conversation response.  `none`
models `_rate_limited_request` having returned `None`; a falsy body takes the
same `if not response_data` branch.  The ids are read via
`.get("conversation", {}).get("id")` and `.get("message", {}).get("id")`, and
both must be truthy. -/
def newConversationParse (response_data : Option JVal) : SubmitResult :=
  match response_data with
  | none => .returned "Error: Failed to get response when starting conversation."
  | some d =>
    if !d.truthy then .returned "Error: Failed to get response when starting conversation."
    else
      match d.attrGet "conversation" (JVal.obj []) with
      | .error m => .raised m
      | .ok convObj =>
        match convObj.attrGetOpt "id" with
        | .error m => .raised m
        | .ok cid =>
          match d.attrGet "message" (JVal.obj []) with
          | .error m => .raised m
          | .ok msgObj =>
            match msgObj.attrGetOpt "id" with
            | .error m => .raised m
            | .ok mid =>
              if !optTruthy cid || !optTruthy mid then
                .returned ("Error: Missing conversation_id or message_id. Response: " ++ d.pyStr)
              else .proceed (cid.getD JVal.nullV) (mid.getD JVal.nullV)

/-- The whole start-conversation call of `_run` (lines 168–183): the
rate-limited POST plus the `except requests.exceptions.RequestException`
handler, which turns an `HTTPError` carrying a response into
`"Error starting conversation: " ++ explained-message` and a response-less
exception into `"Error starting conversation: " ++ str(e)`.  Instrumented with
the back-off sleeps performed. -/
def startConvSubmit (url : String) (events : List NetEvent) : SubmitResult × List Nat :=
  match rateLimitedRequest url events 3 2 with
  | (.ret v, sleeps) => (newConversationParse v, sleeps)
  | (.raised m _, sleeps) => (.returned ("Error starting conversation: " ++ m), sleeps)
  | (.netErr m, sleeps) => (.returned ("Error starting conversation: " ++ m), sleeps)

/-- Lines 156–158 of `_run`: extract the new message id from a follow-up
response — `response_data.get("id")` first, and if that is falsy,
`response_data.get("message", {}).get("id")`. -/
def followUpMessageId (response_data : JVal) : Except String (Option JVal) :=
  match response_data.attrGetOpt "id" with
  | .error m => .error m
  | .ok mid0 =>
    if !optTruthy mid0 then
      match response_data.attrGet "message" (JVal.obj []) with
      | .error m => .error m
      | .ok msgObj => msgObj.attrGetOpt "id"
    else .ok mid0

/-- The mutable extraction state of the poll/extract phase of `_run`:
`genie_response_text`, `generated_sql` (both initialised to the
`"Not available"` placeholder) and the optional `attachment_id_for_results`. -/
structure ScanState where
  genie_response_text : JVal
  generated_sql : JVal
  attachment_id_for_results : Option JVal

/-- The extraction state at the top of the poll loop. -/
def initScanState : ScanState :=
  ⟨JVal.str "Not available", JVal.str "Not available", none⟩

/-- Lines 213–230 of `_run`: the `current_attachment_text` and
`current_attachment_sql` computed from one attachment — the nested `query`
object's `description`/`query` fields first, then the `text` field (a string,
a dict with `content`, `None`, or anything else rendered with `str`). -/
def currentAttachment (attachment : JVal) : JVal × JVal :=
  let t0 := JVal.str "Not available"
  let s0 := JVal.str "Not available"
  let fromQuery :=
    match attachment.lookup? "query" with
    | some (JVal.obj qfields) =>
      let t1 := (assocFind "description" qfields).getD t0
      let s1 := (assocFind "query" qfields).getD s0
      (t1, s1)
    | _ => (t0, s0)
  let t2 :=
    if jvalEqStr fromQuery.1 "Not available" then
      match attachment.lookup? "text" with
      | none => fromQuery.1
      | some raw =>
        match raw with
        | JVal.obj rfields =>
          match assocFind "content" rfields with
          | some c => c
          | none => JVal.str (JVal.obj rfields).pyStr
        | JVal.str s => JVal.str s
        | JVal.nullV => JVal.str "Text format not recognized."
        | other => JVal.str other.pyStr
    else fromQuery.1
  (t2, fromQuery.2)

/-- Python `generated_sql in ["Not available", "No SQL string in query object."]`. -/
def placeholderSql (v : JVal) : Bool :=
  jvalEqStr v "Not available" || jvalEqStr v "No SQL string in query object."

/-- Lines 212–240 of `_run`: the effect of one loop iteration over an
attachment on the extraction state — overwrite the response text / SQL when
the attachment yielded something other than `"Not available"`, and record
`attachment_id_for_results` when the attachment has an `attachment_id` key,
results were requested, and the (just updated, globally best) `generated_sql`
is not a placeholder. -/
def processAttachment (fetch_query_results : Bool) (st : ScanState)
    (attachment : JVal) : ScanState :=
  let curr := currentAttachment attachment
  let text' := if !jvalEqStr curr.1 "Not available" then curr.1 else st.genie_response_text
  let sql' := if !jvalEqStr curr.2 "Not available" then curr.2 else st.generated_sql
  let aid' :=
    if attachment.hasKey "attachment_id" && (fetch_query_results && !placeholderSql sql')
    then attachment.lookup? "attachment_id"
    else st.attachment_id_for_results
  ⟨text', sql', aid'⟩

/-- The `break` condition at lines 242–244: a response text and a real SQL
string have both been found. -/
def bothFound (st : ScanState) : Bool :=
  !jvalEqStr st.genie_response_text "Not available" && !placeholderSql st.generated_sql

/-- The `for attachment in attachments` loop of `_run` with its early
`break`. -/
def scanAttachments (fetch_query_results : Bool) (st : ScanState) :
    List JVal → ScanState
  | [] => st
  | a :: rest =>
    let st' := processAttachment fetch_query_results st a
    if bothFound st' then st' else scanAttachments fetch_query_results st' rest

/-- Lines 245–254 of `_run`: the no-attachments fallback on
`poll_data.get("content")` — a string is used as the response text only when
it differs case-insensitively from the original query; a dict supplies its
`"content"` entry unconditionally; anything else only appends a note. -/
def fallbackContent (natural_language_query : String) (poll_data : JVal)
    (st : ScanState) : ScanState × List String :=
  match poll_data.lookup? "content" with
  | some (JVal.str s) =>
    if !(pyLower s = pyLower natural_language_query) then
      (⟨JVal.str s, st.generated_sql, st.attachment_id_for_results⟩,
        ["No attachments; used message content for response."])
    else (st, ["No attachments or suitable main content for response."])
  | some (JVal.obj rfields) =>
    match assocFind "content" rfields with
    | some c =>
      (⟨c, st.generated_sql, st.attachment_id_for_results⟩,
        ["No attachments; used message content for response."])
    | none => (st, ["No attachments or suitable main content for response."])
  | _ => (st, ["No attachments or suitable main content for response."])

/-- Lines 209–254 of `_run`: extraction from a COMPLETED poll payload — scan
the attachments when `attachments` is a non-empty list, otherwise fall back to
the message's own `content` field (a string is used only when it differs
case-insensitively from the query; a dict's `"content"` entry is used
unconditionally; anything else leaves the placeholder).  Returns the new
extraction state and the notes appended to `output_parts`.  The payload is an
object at every reachable call (a non-dict payload is diverted earlier by the
poll loop). -/
def extractCompleted (natural_language_query : String) (fetch_query_results : Bool)
    (poll_data : JVal) (st : ScanState) : ScanState × List String :=
  let attachments := poll_data.lookup? "attachments"
  match attachments with
  | some (JVal.list items) =>
    if !items.isEmpty then (scanAttachments fetch_query_results st items, [])
    else fallbackContent natural_language_query poll_data st
  | some _ => fallbackContent natural_language_query poll_data st
  | none => fallbackContent natural_language_query poll_data st

/-- How the poll loop of `_run` ended, labelled by return site:
`timedOut` is the `"Error: Polling timed out."` return, `terminalReturn` the
FAILED/CANCELLED return, `completed` the `break` with the COMPLETED payload,
`unexpectedReturn` the `except Exception` return (e.g. `.get` on a non-dict
payload), and `outOfEvents` a model artifact for an exhausted oracle.  Each
carries the accumulated `output_parts` and the elapsed seconds (sleeps
performed so far). -/
inductive PollResult where
  | timedOut (parts : List String) (elapsed : Nat)
  | terminalReturn (parts : List String) (elapsed : Nat)
  | completed (payload : JVal) (parts : List String) (elapsed : Nat)
  | unexpectedReturn (parts : List String) (elapsed : Nat)
  | outOfEvents (parts : List String) (elapsed : Nat)

/-- Lines 194–274 of `_run`: the `while True` poll loop, up to (but not
including) the extraction from a COMPLETED payload.  The oracle supplies one
bundle of network events per loop iteration (consumed by
`_rate_limited_request`).  Elapsed time counts the sleeps: the back-off sleeps
inside `_rate_limited_request` plus one `polling_interval_seconds` sleep per
iteration that loops; requests themselves are instantaneous in this model.
The timeout check `time.time() - start_time > polling_timeout_seconds`
happens before each request. -/
def pollLoop (poll_url : String) (polling_interval_seconds polling_timeout_seconds : Nat) :
    List (List NetEvent) → Nat → List String → PollResult
  | [], elapsed, parts =>
    if elapsed > polling_timeout_seconds then
      .timedOut (parts ++ ["Error: Polling timed out."]) elapsed
    else .outOfEvents parts elapsed
  | bundle :: rest, elapsed, parts =>
    if elapsed > polling_timeout_seconds then
      .timedOut (parts ++ ["Error: Polling timed out."]) elapsed
    else
        match rateLimitedRequest poll_url bundle 3 2 with
        | (RLOutcome.ret v, sleeps) =>
          let e2 := elapsed + sleeps.sum
          match v with
          | none =>
            pollLoop poll_url polling_interval_seconds polling_timeout_seconds rest
              (e2 + polling_interval_seconds)
              (parts ++ ["Error: Failed to get polling response."])
          | some pd =>
            if !pd.truthy then
              pollLoop poll_url polling_interval_seconds polling_timeout_seconds rest
                (e2 + polling_interval_seconds)
                (parts ++ ["Error: Failed to get polling response."])
            else if pd.isObj then
              let status := pd.lookup? "status"
              if optEqStr status "COMPLETED" then
                .completed pd (parts ++ ["Genie processing completed."]) e2
              else if optEqStr status "FAILED" || optEqStr status "CANCELLED" then
                let error_details := (pd.lookup? "error").getD (JVal.str "Unknown error")
                .terminalReturn
                  (parts ++ ["Error: Genie processing " ++ optPyStr status ++
                    ". Details: " ++ error_details.pyStr]) e2
              else if optEqStr status "IN_PROGRESS" then
                pollLoop poll_url polling_interval_seconds polling_timeout_seconds rest
                  (e2 + polling_interval_seconds) parts
              else
                pollLoop poll_url polling_interval_seconds polling_timeout_seconds rest
                  (e2 + polling_interval_seconds)
                  (parts ++ ["Info: Genie API status update - \x27" ++ optPyStr status ++ "\x27."])
            else
              .unexpectedReturn
                (parts ++ ["Unexpected error during polling: " ++ pyAttrErrMsg pd]) e2
        | (RLOutcome.raised m _, sleeps) =>
          pollLoop poll_url polling_interval_seconds polling_timeout_seconds rest
            (elapsed + sleeps.sum + polling_interval_seconds)
            (parts ++ ["Error during polling: " ++ m])
        | (RLOutcome.netErr m, sleeps) =>
          pollLoop poll_url polling_interval_seconds polling_timeout_seconds rest
            (elapsed + sleeps.sum + polling_interval_seconds)
            (parts ++ ["Error during polling: " ++ m])

/-- A poll-iteration oracle bundle that yields a well-formed 200 JSON payload
whose status is not terminal (not COMPLETED, FAILED or CANCELLED). -/
def nonTerminalBundle : List NetEvent → Bool
  | [NetEvent.resp r] =>
    decide (r.status = 200) && r.json.truthy && r.json.isObj &&
    !optEqStr (r.json.lookup? "status") "COMPLETED" &&
    !optEqStr (r.json.lookup? "status") "FAILED" &&
    !optEqStr (r.json.lookup? "status") "CANCELLED"
  | _ => false

/-- Lines 276–298 of `_run`: the optional query-result fetch after the poll
loop.  Returns `query_results_str` and whether a query-result GET was actually
issued. -/
def queryResultsStep (fetch_query_results : Bool) (attachment_id_for_results : Option JVal)
    (generated_sql : JVal) (results_url : String) (events : List NetEvent) :
    String × Bool :=
  if fetch_query_results && (optTruthy attachment_id_for_results && !placeholderSql generated_sql) then
    match rateLimitedRequest results_url events 3 2 with
    | (RLOutcome.ret none, _) => ("Error: Failed to get query results.", true)
    | (RLOutcome.ret (some v), _) =>
      if !v.truthy then ("Error: Failed to get query results.", true)
      else ("Successfully fetched: " ++ v.pyStr, true)
    | (RLOutcome.raised m _, _) => ("Error fetching results: " ++ m, true)
    | (RLOutcome.netErr m, _) => ("Error fetching results: " ++ m, true)
  else if fetch_query_results && placeholderSql generated_sql then
    ("Not fetched; no SQL query was generated.", false)
  else if fetch_query_results && !optTruthy attachment_id_for_results then
    ("Not fetched; no attachment_id for results.", false)
  else ("Not fetched.", false)

/-- Lines 300–306 of `_run`: the structured report lines. -/
def finalOutputLines (conversation_id message_id : JVal)
    (genie_response_text generated_sql : JVal) (query_results_str : String) :
    List String :=
  ["Conversation ID: " ++ conversation_id.pyStr,
   "Message ID: " ++ message_id.pyStr,
   "Genie\x27s Textual Response: " ++ genie_response_text.pyStr,
   "Generated SQL Query: " ++ generated_sql.pyStr,
   "Query Results: " ++ query_results_str]

/-- `DatabricksGenieNLQTool.__init__`: read the three environment values
(`None` when unset) and raise `ValueError` — token first, then instance, then
space id — when the value is absent or empty (Python `if not x`). -/
def toolInit (databricks_token databricks_instance genie_space_id : Option String) :
    Except String Unit :=
  if !strOptTruthy databricks_token then
    .error "DATABRICKS_TOKEN environment variable not found."
  else if !strOptTruthy databricks_instance then
    .error "DATABRICKS_INSTANCE environment variable not found."
  else if !strOptTruthy genie_space_id then
    .error "GENIE_SPACE_ID environment variable not found."
  else .ok ()

/-- Where an invocation of `_run` stands after the submit step: an early
return or escaped exception never touches the poll oracle; a successful submit
runs the poll loop. -/
inductive RunStage where
  | earlyReturn (s : String)
  | raisedStage (msg : String)
  | polled (res : PollResult) (conversation_id message_id : JVal)

/-- The control flow of `_run` from the submit outcome onwards: only a
`proceed` outcome reaches the poll loop (lines 185–194); an error string is
returned before any poll request is issued. -/
def runAfterSubmit (sub : SubmitResult) (poll_url : String)
    (polling_interval_seconds polling_timeout_seconds : Nat)
    (pollOracle : List (List NetEvent)) : RunStage :=
  match sub with
  | .returned s => .earlyReturn s
  | .raised m => .raisedStage m
  | .proceed cid mid =>
    .polled (pollLoop poll_url polling_interval_seconds polling_timeout_seconds pollOracle 0 []) cid mid

/-- A rate-limited (HTTP 429) response. -/
def resp429 : HttpResponse :=
  ⟨429, "rate limited", JVal.nullV, []⟩

/-- A successful response with a JSON object body. -/
def resp200 : HttpResponse :=
  ⟨200, "", JVal.obj [("ok", JVal.boolV true)], []⟩

/-- A 200 poll response whose payload is still IN_PROGRESS. -/
def inProgressBundle : List NetEvent :=
  [NetEvent.resp ⟨200, "", JVal.obj [("status", JVal.str "IN_PROGRESS")], []⟩]

/-- An attachment carrying SQL in its nested query object but no text. -/
def attWithSqlOnly : JVal :=
  JVal.obj [("query", JVal.obj [("query", JVal.str "SELECT 1 FROM t")])]

/-- An attachment carrying an attachment id and a text, but no SQL of its
own. -/
def attWithIdNoSql : JVal :=
  JVal.obj [("attachment_id", JVal.str "att-2"), ("text", JVal.str "Here are the results")]

/-- An attachment whose nested query object has both a description and SQL. -/
def attWithBoth : JVal :=
  JVal.obj [("query", JVal.obj [("description", JVal.str "the answer"),
    ("query", JVal.str "SELECT 2")])]

/-- A text-only attachment. -/
def attTextFirst : JVal :=
  JVal.obj [("text", JVal.str "first text")]

/-- Another text-only attachment. -/
def attTextSecond : JVal :=
  JVal.obj [("text", JVal.str "second text")]

/-- The field named `k` of the response is either absent or itself an object
(the shape Python's `.get(k, {}).get("id")` chain handles without raising). -/
def fieldObjOrAbsent (d : JVal) (k : String) : Prop :=
  d.lookup? k = none ∨ ∃ fs, d.lookup? k = some (JVal.obj fs)

/-- The id extracted by `.get(k, {}).get("id")`. -/
def idFrom (d : JVal) (k : String) : Option JVal :=
  ((d.lookup? k).getD (JVal.obj [])).lookup? "id"

/-- A well-formed start-conversation response with both ids. -/
def dGood : JVal :=
  JVal.obj [("conversation", JVal.obj [("id", JVal.str "c-1")]),
    ("message", JVal.obj [("id", JVal.str "m-1")])]

/-- A start-conversation response with a conversation id but no message. -/
def dMissing : JVal :=
  JVal.obj [("conversation", JVal.obj [("id", JVal.str "c-1")])]

/-- C1: with the default `max_retries=3`, three consecutive 429 responses
exhaust the `while retry_count < max_retries` loop: the code sleeps 2s, 4s and
8s but makes only three attempts and returns `None` — the fourth attempt (the
waiting 200 response) is never made and no JSON body is returned, contrary to
the claim. -/
theorem c1_retry_exhaustion :
    rateLimitedRequest "https://host/api/2.0/genie/spaces/s/start-conversation"
      [NetEvent.resp resp429, NetEvent.resp resp429, NetEvent.resp resp429, NetEvent.resp resp200]
      3 2
      = (RLOutcome.ret none, [2, 4, 8]) := rfl

/-- C2 counterexample: with `fetch_query_results=true`, scanning a first
attachment that carries SQL but no attachment id, then a second attachment
that carries an attachment id and text but no SQL of its own, records
`attachment_id_for_results` from the second attachment — an attachment whose
own SQL extraction is the `"Not available"` placeholder — because the code
tests the running `generated_sql`, not the SQL of the same attachment. -/
theorem c2_counterexample :
    (scanAttachments true initScanState [attWithSqlOnly, attWithIdNoSql]).attachment_id_for_results
        = some (JVal.str "att-2")
    ∧ (currentAttachment attWithIdNoSql).2 = JVal.str "Not available" :=
  ⟨rfl, rfl⟩

/-- C2 (amended): processing one attachment changes
`attachment_id_for_results` only when `fetch_query_results` is true and the
best-known `generated_sql` after processing that attachment — which may have
been extracted from an earlier attachment — is a real SQL string (not a
placeholder). -/
theorem c2_attachment_id_guard (fetch : Bool) (st : ScanState) (a : JVal)
    (h : (processAttachment fetch st a).attachment_id_for_results
          ≠ st.attachment_id_for_results) :
    fetch = true
    ∧ placeholderSql (processAttachment fetch st a).generated_sql = false := by
  have heq : (processAttachment fetch st a).attachment_id_for_results
      = (if (a.hasKey "attachment_id"
            && (fetch && !placeholderSql (processAttachment fetch st a).generated_sql)) = true
         then a.lookup? "attachment_id" else st.attachment_id_for_results) := rfl
  by_cases hc : (a.hasKey "attachment_id"
      && (fetch && !placeholderSql (processAttachment fetch st a).generated_sql)) = true
  · simp only [Bool.and_eq_true] at hc
    exact ⟨hc.2.1, by simpa using hc.2.2⟩
  · rw [heq, if_neg hc] at h
    exact absurd rfl h

/-- Witness for `c2_attachment_id_guard` at a concrete attachment. -/
theorem c2_attachment_id_guard_witness :
    true = true
    ∧ placeholderSql (processAttachment true initScanState
        (JVal.obj [("attachment_id", JVal.str "a1"),
          ("query", JVal.obj [("query", JVal.str "SELECT 3")])])).generated_sql = false :=
  c2_attachment_id_guard true initScanState
    (JVal.obj [("attachment_id", JVal.str "a1"),
      ("query", JVal.obj [("query", JVal.str "SELECT 3")])])
    (by simp [processAttachment, currentAttachment, jvalEqStr, placeholderSql,
      JVal.hasKey, JVal.lookup?, assocFind, initScanState])

/-- Text extracted once, never reset: one attachment step preserves a
non-placeholder `genie_response_text`. -/
theorem processAttachment_text_mono (f : Bool) (st : ScanState) (a : JVal)
    (h : jvalEqStr st.genie_response_text "Not available" = false) :
    jvalEqStr (processAttachment f st a).genie_response_text "Not available" = false := by
  dsimp only [processAttachment]
  split
  · next hc => simpa using hc
  · exact h

/-- SQL extracted once, never reset to the `"Not available"` placeholder by
one attachment step. -/
theorem processAttachment_sql_mono (f : Bool) (st : ScanState) (a : JVal)
    (h : jvalEqStr st.generated_sql "Not available" = false) :
    jvalEqStr (processAttachment f st a).generated_sql "Not available" = false := by
  dsimp only [processAttachment]
  split
  · next hc => simpa using hc
  · exact h

/-- The whole attachment scan preserves a non-placeholder response text. -/
theorem scanAttachments_text_mono (f : Bool) :
    ∀ (atts : List JVal) (st : ScanState),
      jvalEqStr st.genie_response_text "Not available" = false →
      jvalEqStr (scanAttachments f st atts).genie_response_text "Not available" = false := by
  intro atts
  induction atts with
  | nil => intro st h; exact h
  | cons a rest ih =>
    intro st h
    dsimp only [scanAttachments]
    split
    · exact processAttachment_text_mono f st a h
    · exact ih _ (processAttachment_text_mono f st a h)

/-- The whole attachment scan preserves a non-placeholder generated SQL. -/
theorem scanAttachments_sql_mono (f : Bool) :
    ∀ (atts : List JVal) (st : ScanState),
      jvalEqStr st.generated_sql "Not available" = false →
      jvalEqStr (scanAttachments f st atts).generated_sql "Not available" = false := by
  intro atts
  induction atts with
  | nil => intro st h; exact h
  | cons a rest ih =>
    intro st h
    dsimp only [scanAttachments]
    split
    · exact processAttachment_sql_mono f st a h
    · exact ih _ (processAttachment_sql_mono f st a h)

/-- The scan stops at the first attachment after which both a response text
and a real SQL string are known. -/
theorem scanAttachments_stops (f : Bool) (st : ScanState) (a : JVal) (rest : List JVal)
    (h : bothFound (processAttachment f st a) = true) :
    scanAttachments f st (a :: rest) = processAttachment f st a := by
  dsimp only [scanAttachments]
  simp [h]

/-- C9: across the attachment scan of a COMPLETED payload, (i) a response
text other than the `"Not available"` placeholder is never reset to it,
(ii) likewise for the generated SQL, (iii) the scan stops as soon as an
attachment leaves both a response text and a real SQL string, and (iv) a later
non-placeholder value may overwrite an earlier one. -/
theorem c9_scan_invariants :
    (∀ (f : Bool) (atts : List JVal) (st : ScanState),
      jvalEqStr st.genie_response_text "Not available" = false →
      jvalEqStr (scanAttachments f st atts).genie_response_text "Not available" = false)
    ∧ (∀ (f : Bool) (atts : List JVal) (st : ScanState),
      jvalEqStr st.generated_sql "Not available" = false →
      jvalEqStr (scanAttachments f st atts).generated_sql "Not available" = false)
    ∧ (∀ (f : Bool) (st : ScanState) (a : JVal) (rest : List JVal),
      bothFound (processAttachment f st a) = true →
      scanAttachments f st (a :: rest) = processAttachment f st a)
    ∧ (scanAttachments false initScanState [attTextFirst, attTextSecond]).genie_response_text
        = JVal.str "second text" :=
  ⟨fun f atts st h => scanAttachments_text_mono f atts st h,
   fun f atts st h => scanAttachments_sql_mono f atts st h,
   fun f st a rest h => scanAttachments_stops f st a rest h,
   rfl⟩

/-- Witness for `c9_scan_invariants` at concrete inputs. -/
theorem c9_scan_invariants_witness :
    jvalEqStr (scanAttachments true
        ⟨JVal.str "hello", JVal.str "Not available", none⟩
        [attTextFirst]).genie_response_text "Not available" = false
    ∧ scanAttachments true initScanState (attWithBoth :: [attTextFirst])
        = processAttachment true initScanState attWithBoth :=
  ⟨c9_scan_invariants.1 true [attTextFirst]
      ⟨JVal.str "hello", JVal.str "Not available", none⟩ rfl,
   c9_scan_invariants.2.2.1 true initScanState attWithBoth [attTextFirst] rfl⟩

/-- C3 counterexample: a COMPLETED payload with no attachments whose `content`
field is a dict `{"content": "hello"}` (which differs from the query "hi" in
any reading) makes `genie_response_text` the inner `"hello"` — neither the
content-field value itself nor the `"Not available"` placeholder, and with no
case-insensitive comparison against the query ever performed. -/
theorem c3_counterexample :
    (extractCompleted "hi" false
        (JVal.obj [("status", JVal.str "COMPLETED"),
          ("content", JVal.obj [("content", JVal.str "hello")])])
        initScanState).1.genie_response_text = JVal.str "hello"
    ∧ JVal.str "hello" ≠ JVal.obj [("content", JVal.str "hello")]
    ∧ JVal.str "hello" ≠ JVal.str "Not available" :=
  ⟨rfl, by simp, by simp⟩

/-- C3 (amended): for a COMPLETED object payload with no `attachments` key,
the case-insensitive guard applies only when the `content` field is a string:
such a string equal (case-insensitively) to the query leaves
`genie_response_text` at `"Not available"`, a differing string becomes the
response text; a dict-shaped `content` yields its inner `"content"` entry
unconditionally; an absent `content` leaves the placeholder. -/
theorem c3_content_fallback (q : String) (fetch : Bool) (pd : JVal)
    (hobj : pd.isObj = true) (hatt : pd.lookup? "attachments" = none) :
    (∀ s : String, pd.lookup? "content" = some (JVal.str s) →
      ((pyLower s = pyLower q →
        (extractCompleted q fetch pd initScanState).1.genie_response_text
          = JVal.str "Not available")
      ∧ (pyLower s ≠ pyLower q →
        (extractCompleted q fetch pd initScanState).1.genie_response_text = JVal.str s)))
    ∧ (∀ (rfields : List (String × JVal)) (c : JVal),
        pd.lookup? "content" = some (JVal.obj rfields) →
        assocFind "content" rfields = some c →
        (extractCompleted q fetch pd initScanState).1.genie_response_text = c)
    ∧ (pd.lookup? "content" = none →
        (extractCompleted q fetch pd initScanState).1.genie_response_text
          = JVal.str "Not available") := by
  refine ⟨?_, ?_, ?_⟩
  · intro s hs
    constructor
    · intro hEq
      simp [extractCompleted, fallbackContent, hatt, hs, hEq, initScanState]
    · intro hNe
      simp [extractCompleted, fallbackContent, hatt, hs, hNe]
  · intro rfields c hc hinner
    simp [extractCompleted, fallbackContent, hatt, hc, hinner]
  · intro hnone
    simp [extractCompleted, fallbackContent, hatt, hnone, initScanState]

/-- Witness for `c3_content_fallback` at concrete payloads. -/
theorem c3_content_fallback_witness :
    ((extractCompleted "What is up" false
        (JVal.obj [("content", JVal.str "WHAT IS UP")])
        initScanState).1.genie_response_text = JVal.str "Not available")
    ∧ ((extractCompleted "What is up" false
        (JVal.obj [("content", JVal.str "All good")])
        initScanState).1.genie_response_text = JVal.str "All good") :=
  ⟨((c3_content_fallback "What is up" false
      (JVal.obj [("content", JVal.str "WHAT IS UP")]) rfl rfl).1
      "WHAT IS UP" rfl).1 (by decide),
   ((c3_content_fallback "What is up" false
      (JVal.obj [("content", JVal.str "All good")]) rfl rfl).1
      "All good" rfl).2 (by decide)⟩

/-- The missing-id error string of the start-conversation parse names both id
fields, so whichever is missing is mentioned. -/
theorem missing_ids_message_mentions_fields :
    strHas "Error: Missing conversation_id or message_id. Response: " "conversation_id" = true
    ∧ strHas "Error: Missing conversation_id or message_id. Response: " "message_id" = true
    ∧ strHas "Error: Missing conversation_id or message_id. Response: " "Error" = true := by
  refine ⟨?_, ?_, ?_⟩ <;> decide

/-- C4 counterexample: the empty JSON object is a new-conversation response
missing both ids, yet `_run` returns the generic
`"Error: Failed to get response when starting conversation."` (the falsy-body
branch), a string that does mention `"Error"` but mentions neither
`conversation_id` nor `message_id`. -/
theorem c4_counterexample :
    newConversationParse (some (JVal.obj []))
      = SubmitResult.returned "Error: Failed to get response when starting conversation."
    ∧ strHas "Error: Failed to get response when starting conversation."
        "conversation_id" = false
    ∧ strHas "Error: Failed to get response when starting conversation."
        "message_id" = false
    ∧ strHas "Error: Failed to get response when starting conversation."
        "Error" = true := by
  refine ⟨rfl, ?_, ?_, ?_⟩ <;> decide

/-- Computation of the start-conversation parse on a truthy object response
whose `conversation`/`message` fields, when present, are objects. -/
theorem newConversationParse_obj (fs : List (String × JVal))
    (hc : fieldObjOrAbsent (JVal.obj fs) "conversation")
    (hm : fieldObjOrAbsent (JVal.obj fs) "message")
    (hT : (JVal.obj fs).truthy = true) :
    newConversationParse (some (JVal.obj fs)) =
      if optTruthy (idFrom (JVal.obj fs) "conversation") = false
          ∨ optTruthy (idFrom (JVal.obj fs) "message") = false then
        SubmitResult.returned
          ("Error: Missing conversation_id or message_id. Response: " ++ (JVal.obj fs).pyStr)
      else
        SubmitResult.proceed ((idFrom (JVal.obj fs) "conversation").getD JVal.nullV)
          ((idFrom (JVal.obj fs) "message").getD JVal.nullV) := by
  rcases hc with hc | ⟨cfs, hc⟩ <;> rcases hm with hm | ⟨mfs, hm⟩ <;>
    simp only [JVal.lookup?] at hc hm <;>
    simp [newConversationParse, JVal.attrGet, JVal.attrGetOpt, hT, hc, hm, idFrom,
      JVal.lookup?]

/-- C4 (amended): for a truthy JSON-object new-conversation response whose
`conversation`/`message` fields (when present) are objects, containing truthy
ids at `conversation.id` and `message.id` makes `_run` proceed to the poll
loop; a missing (or falsy) id makes `_run` return the
`"Error: Missing conversation_id or message_id. Response: ..."` string — which
names both id fields — without the poll oracle ever being touched; a falsy
response body (for instance the empty object) instead returns the generic
`"Error: Failed to get response when starting conversation."`, also without
polling. -/
theorem c4_submit_ids (d : JVal) (hobj : d.isObj = true)
    (hc : fieldObjOrAbsent d "conversation") (hm : fieldObjOrAbsent d "message") :
    (d.truthy = false →
      ∀ (url : String) (interval timeout : Nat) (oracle : List (List NetEvent)),
        runAfterSubmit (newConversationParse (some d)) url interval timeout oracle
          = RunStage.earlyReturn "Error: Failed to get response when starting conversation.")
    ∧ (d.truthy = true → optTruthy (idFrom d "conversation") = true →
        optTruthy (idFrom d "message") = true →
      ∀ (url : String) (interval timeout : Nat) (oracle : List (List NetEvent)),
        ∃ c m, idFrom d "conversation" = some c ∧ idFrom d "message" = some m ∧
          runAfterSubmit (newConversationParse (some d)) url interval timeout oracle
            = RunStage.polled (pollLoop url interval timeout oracle 0 []) c m)
    ∧ (d.truthy = true →
        (optTruthy (idFrom d "conversation") = false
          ∨ optTruthy (idFrom d "message") = false) →
      ∀ (url : String) (interval timeout : Nat) (oracle : List (List NetEvent)),
        runAfterSubmit (newConversationParse (some d)) url interval timeout oracle
          = RunStage.earlyReturn
              ("Error: Missing conversation_id or message_id. Response: " ++ d.pyStr)) := by
  obtain ⟨fs, rfl⟩ : ∃ fs, d = JVal.obj fs := by
    cases d with
    | obj fs => exact ⟨fs, rfl⟩
    | nullV => exact absurd hobj (by simp [JVal.isObj])
    | boolV b => exact absurd hobj (by simp [JVal.isObj])
    | num n => exact absurd hobj (by simp [JVal.isObj])
    | str s => exact absurd hobj (by simp [JVal.isObj])
    | list l => exact absurd hobj (by simp [JVal.isObj])
  refine ⟨?_, ?_, ?_⟩
  · intro hF url interval timeout oracle
    simp [newConversationParse, hF, runAfterSubmit]
  · intro hT h1 h2 url interval timeout oracle
    obtain ⟨c, hcv⟩ : ∃ c, idFrom (JVal.obj fs) "conversation" = some c := by
      cases hx : idFrom (JVal.obj fs) "conversation" with
      | none => rw [hx] at h1; exact absurd h1 (by simp [optTruthy])
      | some c => exact ⟨c, rfl⟩
    obtain ⟨m, hmv⟩ : ∃ m, idFrom (JVal.obj fs) "message" = some m := by
      cases hx : idFrom (JVal.obj fs) "message" with
      | none => rw [hx] at h2; exact absurd h2 (by simp [optTruthy])
      | some m => exact ⟨m, rfl⟩
    refine ⟨c, m, hcv, hmv, ?_⟩
    rw [hcv] at h1
    rw [hmv] at h2
    simp [runAfterSubmit, newConversationParse_obj fs hc hm hT, h1, h2, hcv, hmv]
  · intro hT hmiss url interval timeout oracle
    rcases hmiss with h | h <;>
      simp [runAfterSubmit, newConversationParse_obj fs hc hm hT, h]

/-- Witness for `c4_submit_ids` at concrete responses. -/
theorem c4_submit_ids_witness :
    (∃ c m, idFrom dGood "conversation" = some c ∧ idFrom dGood "message" = some m ∧
      runAfterSubmit (newConversationParse (some dGood)) "u" 5 600 []
        = RunStage.polled (pollLoop "u" 5 600 [] 0 []) c m)
    ∧ runAfterSubmit (newConversationParse (some dMissing)) "u" 5 600 []
        = RunStage.earlyReturn
            ("Error: Missing conversation_id or message_id. Response: " ++ dMissing.pyStr) :=
  ⟨(c4_submit_ids dGood rfl (Or.inr ⟨_, rfl⟩) (Or.inr ⟨_, rfl⟩)).2.1 rfl rfl rfl "u" 5 600 [],
   (c4_submit_ids dMissing rfl (Or.inr ⟨_, rfl⟩) (Or.inl rfl)).2.2 rfl (Or.inr rfl) "u" 5 600 []⟩

/-- C6: the follow-up message id is read from the top-level `id` key first;
when that is absent (or falsy) it is read from `message.id`; both shapes yield
the same extracted id, and when both locations are populated the top-level one
wins. -/
theorem c6_followup_id :
    (∀ (fs : List (String × JVal)) (v : JVal),
      assocFind "id" fs = some v → v.truthy = true →
      followUpMessageId (JVal.obj fs) = .ok (some v))
    ∧ (∀ (fs mfs : List (String × JVal)),
      assocFind "id" fs = none → assocFind "message" fs = some (JVal.obj mfs) →
      followUpMessageId (JVal.obj fs) = .ok (assocFind "id" mfs))
    ∧ (∀ v : JVal, v.truthy = true →
      followUpMessageId (JVal.obj [("id", v)]) = .ok (some v)
      ∧ followUpMessageId (JVal.obj [("message", JVal.obj [("id", v)])]) = .ok (some v))
    ∧ (∀ (v w : JVal), v.truthy = true →
      followUpMessageId (JVal.obj [("id", v), ("message", JVal.obj [("id", w)])])
        = .ok (some v)) := by
  refine ⟨?_, ?_, ?_, ?_⟩
  · intro fs v hv htr
    simp [followUpMessageId, JVal.attrGetOpt, hv, optTruthy, htr]
  · intro fs mfs hid hmsg
    simp [followUpMessageId, JVal.attrGetOpt, JVal.attrGet, hid, hmsg, optTruthy]
  · intro v htr
    constructor
    · simp [followUpMessageId, JVal.attrGetOpt, assocFind, optTruthy, htr]
    · simp [followUpMessageId, JVal.attrGetOpt, JVal.attrGet, assocFind, optTruthy]
  · intro v w htr
    simp [followUpMessageId, JVal.attrGetOpt, assocFind, optTruthy, htr]

/-- Witness for `c6_followup_id` at a concrete id. -/
theorem c6_followup_id_witness :
    followUpMessageId (JVal.obj [("id", JVal.str "m-42")]) = .ok (some (JVal.str "m-42"))
    ∧ followUpMessageId (JVal.obj [("message", JVal.obj [("id", JVal.str "m-42")])])
        = .ok (some (JVal.str "m-42")) :=
  c6_followup_id.2.2.1 (JVal.str "m-42") rfl

/-- A 200 response returns its JSON immediately, with no retry sleeps. -/
theorem rateLimitedRequest_200 (url : String) (r : HttpResponse) (rest : List NetEvent)
    (h : r.status = 200) :
    rateLimitedRequest url (NetEvent.resp r :: rest) 3 2 = (RLOutcome.ret (some r.json), []) := by
  simp [rateLimitedRequest, rlrLoop, h]

/-- Induction core for the polling timeout bound: from any loop state whose
elapsed time is within one interval past the budget, a long-enough
all-non-terminal oracle ends in the timed-out return, still within
`polling_timeout_seconds + polling_interval_seconds`. -/
theorem pollLoop_timeout_aux (url : String) (interval timeout : Nat)
    (hint : 1 ≤ interval) :
    ∀ (oracle : List (List NetEvent)) (elapsed : Nat) (parts : List String),
      oracle.all nonTerminalBundle = true →
      timeout < elapsed + interval * oracle.length →
      elapsed ≤ timeout + interval →
      ∃ parts0 e, pollLoop url interval timeout oracle elapsed parts
          = PollResult.timedOut (parts0 ++ ["Error: Polling timed out."]) e
        ∧ e ≤ timeout + interval := by
  intro oracle
  induction oracle with
  | nil =>
    intro elapsed parts hall hlt hle
    have htime : elapsed > timeout := by simpa using hlt
    exact ⟨parts, elapsed, by simp [pollLoop, htime], hle⟩
  | cons bundle rest ih =>
    intro elapsed parts hall hlt hle
    rw [List.all_cons, Bool.and_eq_true] at hall
    obtain ⟨hb, hall'⟩ := hall
    by_cases htime : elapsed > timeout
    · exact ⟨parts, elapsed, by simp [pollLoop, htime], hle⟩
    · have hle' : elapsed ≤ timeout := Nat.le_of_not_lt htime
      have hlt' : timeout < (elapsed + interval) + interval * rest.length := by
        rw [List.length_cons, Nat.mul_succ] at hlt
        linarith
      have hle'' : elapsed + interval ≤ timeout + interval :=
        Nat.add_le_add_right hle' interval
      obtain ⟨r, rfl, hs, htr, hio, hc1, hc2, hc3⟩ :
          ∃ r, bundle = [NetEvent.resp r] ∧ r.status = 200 ∧ r.json.truthy = true
            ∧ r.json.isObj = true
            ∧ optEqStr (r.json.lookup? "status") "COMPLETED" = false
            ∧ optEqStr (r.json.lookup? "status") "FAILED" = false
            ∧ optEqStr (r.json.lookup? "status") "CANCELLED" = false := by
        cases bundle with
        | nil => simp [nonTerminalBundle] at hb
        | cons ev evs =>
          cases ev with
          | netFail m => simp [nonTerminalBundle] at hb
          | resp r =>
            cases evs with
            | nil =>
              simp only [nonTerminalBundle, Bool.and_eq_true, decide_eq_true_eq,
                Bool.not_eq_true'] at hb
              exact ⟨r, rfl, hb.1.1.1.1.1, hb.1.1.1.1.2, hb.1.1.1.2, hb.1.1.2, hb.1.2, hb.2⟩
            | cons _ _ => simp [nonTerminalBundle] at hb
      by_cases hip : optEqStr (r.json.lookup? "status") "IN_PROGRESS" = true
      · have hstep : pollLoop url interval timeout ([NetEvent.resp r] :: rest) elapsed parts
            = pollLoop url interval timeout rest (elapsed + interval) parts := by
          simp [pollLoop, htime, rateLimitedRequest_200 url r [] hs, htr, hio,
            hc1, hc2, hc3, hip]
        rw [hstep]
        exact ih (elapsed + interval) parts hall' hlt' hle''
      · have hip' : optEqStr (r.json.lookup? "status") "IN_PROGRESS" = false :=
          Bool.eq_false_iff.2 hip
        have hstep : pollLoop url interval timeout ([NetEvent.resp r] :: rest) elapsed parts
            = pollLoop url interval timeout rest (elapsed + interval)
                (parts ++ ["Info: Genie API status update - \x27"
                  ++ optPyStr (r.json.lookup? "status") ++ "\x27."]) := by
          simp [pollLoop, htime, rateLimitedRequest_200 url r [] hs, htr, hio,
            hc1, hc2, hc3, hip']
        rw [hstep]
        exact ih (elapsed + interval) _ hall' hlt' hle''

/-- C5: when no poll response ever reaches a terminal status, the poll loop
still terminates through the timeout check: the returned report ends with the
`"Error: Polling timed out."` note (a normal return, `PollResult.timedOut`,
not an exception), and the loop exits within `polling_timeout_seconds` plus at
most one `polling_interval_seconds` of (model) elapsed time. -/
theorem c5_poll_timeout (url : String) (interval timeout : Nat)
    (oracle : List (List NetEvent)) (h1 : 1 ≤ interval)
    (h2 : oracle.all nonTerminalBundle = true)
    (h3 : timeout < interval * oracle.length) :
    ∃ parts0 e, pollLoop url interval timeout oracle 0 []
        = PollResult.timedOut (parts0 ++ ["Error: Polling timed out."]) e
      ∧ e ≤ timeout + interval :=
  pollLoop_timeout_aux url interval timeout h1 oracle 0 [] h2 (by simpa using h3)
    (by omega)

/-- Witness for `c5_poll_timeout`: interval 5s, timeout 7s, two IN_PROGRESS
poll responses. -/
theorem c5_poll_timeout_witness :
    ∃ parts0 e, pollLoop "u" 5 7 [inProgressBundle, inProgressBundle] 0 []
        = PollResult.timedOut (parts0 ++ ["Error: Polling timed out."]) e
      ∧ e ≤ 7 + 5 :=
  c5_poll_timeout "u" 5 7 [inProgressBundle, inProgressBundle]
    (by decide) (by decide) (by decide)

/-- A string starting with a non-empty literal is non-empty. -/
theorem append_isEmpty_false (a x : String) (h : a.length ≠ 0) :
    (a ++ x).isEmpty = false := by
  rw [Bool.eq_false_iff]
  intro hc
  have h2 : a ++ x = "" := (String.isEmpty_iff _).1 hc
  have h3 := congrArg String.length h2
  rw [String.length_append] at h3
  simp at h3
  omega

/-- C7 counterexample: a 400 response — non-2xx and non-429 — is explained
with the status, URL and body but with no remediation hint at all: no status
outside 401/403/404/429/5xx has one. -/
theorem c7_counterexample :
    explainHttpError 400 "https://host/api" "bad" []
      = "HTTP 400 calling https://host/api | Response body: bad"
    ∧ strHas (explainHttpError 400 "https://host/api" "bad" []) "Hints:" = false := by
  constructor
  · decide
  · decide

/-- C7 (amended): every explained HTTP error is the single string
`"HTTP <status> calling <url>" ++ " | " ++ "Response body: " ++ <body
truncated to at most 600 characters>` followed by the request/org identifiers
segment when present and by the status-specific hints; the body is unchanged
when it has at most 600 characters and is cut to 597 characters plus `"..."`
otherwise; statuses 401, 403, 404, 429 and 5xx carry a non-empty
status-specific hint (others carry none); and a 404 — in particular on the
start-conversation call — raises the explained error out of
`_rate_limited_request` on the first attempt, with no retry sleep, so `_run`
returns `"Error starting conversation: HTTP 404 calling ..."`. -/
theorem c7_http_error_format :
    (∀ (status : Nat) (url body : String) (hs : List (String × String)),
      requestIds hs = "" →
      explainHttpError status url body hs
        = ("HTTP " ++ toString status ++ " calling " ++ url) ++ " | "
          ++ ("Response body: " ++ truncate body 600) ++ hintText status)
    ∧ (∀ (status : Nat) (url body : String) (hs : List (String × String)),
      requestIds hs ≠ "" →
      explainHttpError status url body hs
        = ("HTTP " ++ toString status ++ " calling " ++ url) ++ " | "
          ++ ("Response body: " ++ truncate body 600) ++ " | " ++ requestIds hs
          ++ hintText status)
    ∧ (∀ body : String, body.length ≤ 600 → truncate body 600 = body)
    ∧ (∀ body : String, 600 < body.length → truncate body 600 = body.take 597 ++ "...")
    ∧ (∀ status : Nat,
      status ∈ ([401, 403, 404, 429] : List Nat) ∨ (500 ≤ status ∧ status < 600) →
      hintText status = " Hints: " ++ String.intercalate " " (hintsFor status)
        ∧ hintsFor status ≠ [])
    ∧ (∀ (url : String) (r : HttpResponse) (rest : List NetEvent), r.status = 404 →
      rateLimitedRequest url (NetEvent.resp r :: rest) 3 2
        = (RLOutcome.raised (explainHttpError 404 url r.text r.headers) 404, []))
    ∧ (∀ (url : String) (r : HttpResponse) (rest : List NetEvent), r.status = 404 →
      startConvSubmit url (NetEvent.resp r :: rest)
        = (SubmitResult.returned
            ("Error starting conversation: "
              ++ explainHttpError 404 url r.text r.headers), [])) := by
  have hbase : ∀ (status : Nat) (url : String),
      ("HTTP " ++ toString status ++ " calling " ++ url).isEmpty = false := by
    intro status url
    have : ("HTTP " ++ toString status ++ " calling " ++ url)
        = "HTTP " ++ (toString status ++ (" calling " ++ url)) := by
      simp [String.append_assoc]
    rw [this]
    exact append_isEmpty_false _ _ (by decide)
  have hdetails : ∀ body : String, ("Response body: " ++ truncate body 600).isEmpty = false :=
    fun body => append_isEmpty_false _ _ (by decide)
  have hraise404 : ∀ (url : String) (r : HttpResponse) (rest : List NetEvent),
      r.status = 404 →
      rateLimitedRequest url (NetEvent.resp r :: rest) 3 2
        = (RLOutcome.raised (explainHttpError 404 url r.text r.headers) 404, []) := by
    intro url r rest h
    simp [rateLimitedRequest, rlrLoop, h]
  refine ⟨?_, ?_, ?_, ?_, ?_, hraise404, ?_⟩
  · intro status url body hs hreq
    simp only [explainHttpError, hreq]
    rw [List.filter_cons_of_pos (by simp [hbase]),
      List.filter_cons_of_pos (by simp [hdetails]),
      List.filter_cons_of_neg (by decide)]
    simp [String.intercalate, String.intercalate.go]
  · intro status url body hs hreq
    have hmeta : (requestIds hs).isEmpty = false := by
      rw [Bool.eq_false_iff]
      intro hc
      exact hreq ((String.isEmpty_iff _).1 hc)
    simp only [explainHttpError]
    rw [List.filter_cons_of_pos (by simp [hbase]),
      List.filter_cons_of_pos (by simp [hdetails]),
      List.filter_cons_of_pos (by simp [hmeta])]
    simp [String.intercalate, String.intercalate.go]
  · intro body h
    simp [truncate, h]
  · intro body h
    simp [truncate, Nat.not_le.2 h]
  · intro status hst
    rcases hst with hmem | hrange
    · fin_cases hmem <;> exact ⟨by decide, by decide⟩
    · have h0 : ¬ status = 401 := by omega
      have h1 : ¬ status = 403 := by omega
      have h2 : ¬ status = 404 := by omega
      have h3 : ¬ status = 429 := by omega
      have h4 : status ≠ 0 ∧ 500 ≤ status ∧ status < 600 := ⟨by omega, hrange.1, hrange.2⟩
      constructor
      · simp [hintText, hintsFor, h0, h1, h2, h3, h4]
      · simp [hintsFor, h0, h1, h2, h3, h4]
  · intro url r rest h
    simp [startConvSubmit, hraise404 url r rest h]

/-- Witness for `c7_http_error_format` at concrete inputs (a 404 on the
start-conversation call). -/
theorem c7_http_error_format_witness :
    explainHttpError 404 "https://h/x" "nope" []
      = ("HTTP " ++ toString 404 ++ " calling " ++ "https://h/x") ++ " | "
        ++ ("Response body: " ++ truncate "nope" 600) ++ hintText 404
    ∧ truncate "nope" 600 = "nope"
    ∧ (hintText 404 = " Hints: " ++ String.intercalate " " (hintsFor 404)
        ∧ hintsFor 404 ≠ [])
    ∧ startConvSubmit "https://h/x" [NetEvent.resp ⟨404, "nope", JVal.nullV, []⟩]
        = (SubmitResult.returned
            ("Error starting conversation: "
              ++ explainHttpError 404 "https://h/x" "nope" []), []) :=
  ⟨c7_http_error_format.1 404 "https://h/x" "nope" [] rfl,
   c7_http_error_format.2.2.1 "nope" (by decide),
   c7_http_error_format.2.2.2.2.1 404 (Or.inl (by decide)),
   c7_http_error_format.2.2.2.2.2.2 "https://h/x" ⟨404, "nope", JVal.nullV, []⟩ [] rfl⟩

/-- C8: with `fetch_query_results=true`, when the attachment scan leaves
`generated_sql` a placeholder (no real SQL string was ever extracted), the
Query Results field reads `"Not fetched; no SQL query was generated."`, no
query-result GET is issued, and the report line carries that text. -/
theorem c8_no_sql_no_fetch (atts : List JVal) (results_url : String)
    (events : List NetEvent) (hobj : ∀ a ∈ atts, a.isObj = true)
    (h : placeholderSql (scanAttachments true initScanState atts).generated_sql = true) :
    queryResultsStep true
        (scanAttachments true initScanState atts).attachment_id_for_results
        (scanAttachments true initScanState atts).generated_sql results_url events
      = ("Not fetched; no SQL query was generated.", false)
    ∧ ∀ (cid mid text : JVal),
        "Query Results: Not fetched; no SQL query was generated."
          ∈ finalOutputLines cid mid text
              (scanAttachments true initScanState atts).generated_sql
              "Not fetched; no SQL query was generated." := by
  constructor
  · simp [queryResultsStep, h]
  · intro cid mid text
    simp [finalOutputLines]

/-- Witness for `c8_no_sql_no_fetch`: a scan that saw only a text attachment. -/
theorem c8_no_sql_no_fetch_witness :
    queryResultsStep true
        (scanAttachments true initScanState [attTextFirst]).attachment_id_for_results
        (scanAttachments true initScanState [attTextFirst]).generated_sql "u" []
      = ("Not fetched; no SQL query was generated.", false)
    ∧ ∀ (cid mid text : JVal),
        "Query Results: Not fetched; no SQL query was generated."
          ∈ finalOutputLines cid mid text
              (scanAttachments true initScanState [attTextFirst]).generated_sql
              "Not fetched; no SQL query was generated." :=
  c8_no_sql_no_fetch [attTextFirst] "u" [] (by simp [attTextFirst, JVal.isObj]) (by decide)

/-- Characterization of a present, non-empty optional configuration value. -/
theorem strOptTruthy_iff (o : Option String) :
    strOptTruthy o = true ↔ ∃ a, o = some a ∧ a ≠ "" := by
  cases o <;> simp [strOptTruthy]

/-- C10: construction succeeds exactly when all three configuration values
are present and non-empty; otherwise it raises a `ValueError` (an empty
string is rejected just like an absent variable, because the check is Python
truthiness). -/
theorem c10_init_validation (t i s : Option String) :
    (toolInit t i s = .ok () ↔
      ((∃ a, t = some a ∧ a ≠ "") ∧ (∃ b, i = some b ∧ b ≠ "")
        ∧ (∃ c, s = some c ∧ c ≠ "")))
    ∧ (toolInit t i s = .ok () ∨ ∃ m, toolInit t i s = .error m) := by
  constructor
  · rw [← strOptTruthy_iff, ← strOptTruthy_iff, ← strOptTruthy_iff]
    cases ht : strOptTruthy t <;> cases hi : strOptTruthy i <;> cases hs : strOptTruthy s <;>
      simp [toolInit, ht, hi, hs]
  · cases ht : strOptTruthy t <;> cases hi : strOptTruthy i <;> cases hs : strOptTruthy s <;>
      simp [toolInit, ht, hi, hs]

/-- Witness for `c10_init_validation`: all three values present and
non-empty, and an empty-string token rejected. -/
theorem c10_init_validation_witness :
    toolInit (some "tok") (some "host") (some "space") = .ok ()
    ∧ (toolInit (some "") (some "host") (some "space") = .ok ()
        ∨ ∃ m, toolInit (some "") (some "host") (some "space") = .error m) :=
  ⟨(c10_init_validation (some "tok") (some "host") (some "space")).1.mpr
    ⟨⟨"tok", rfl, by decide⟩, ⟨"host", rfl, by decide⟩, ⟨"space", rfl, by decide⟩⟩,
   (c10_init_validation (some "") (some "host") (some "space")).2⟩
